import Mathlib

/-!
Verification of the interactive prompting/wizard core of the repository.

Conventions of the shallow embedding: JS strings are Lean `String`
(`List Char` where character-level reasoning is needed), JS `undefined` is
`Option.none`, a thrown exception is `Except.error`, and the value a promise
resolves with is an ordinary returned value.  Wall-clock time and the
heartbeat of the debug adapter are passed in as explicit sequences.
-/

namespace Toolkit

/-- Tagged outcome of one prompt, from the spec data model: exactly one of a
value, the back signal, or the cancel signal. -/
inductive PromptResult (α : Type) where
  | value (v : α)
  | back
  | cancel
deriving DecidableEq

/-- Sentinel resolved by a back action, as asserted on by the input tests. -/
def WIZARD_BACK : PromptResult String := PromptResult.back

/-- Predicate used by `SearchPatternPrompter.promptUser`: a result that is a
control signal rather than user data. -/
def isWizardControl {α : Type} : PromptResult α → Bool
  | PromptResult.back => true
  | PromptResult.cancel => true
  | PromptResult.value _ => false

/-- Predicate used by `SearchPatternPrompter.promptUser`: a result that is an
actual value. -/
def isValidResponse {α : Type} : PromptResult α → Bool
  | PromptResult.value _ => true
  | _ => false

/-- Modelled from the spec: the behaviour a button handler may have — the
handler receives a resolver callback and may resolve with a value, signal
back, signal cancel (exit), or only perform a side effect, leaving the
prompt open.  The concrete button module is not under src/. -/
inductive ButtonBehavior (α : Type) where
  | resolveWith (v : α)
  | signalBack
  | signalCancel
  | sideEffect
deriving DecidableEq

/-- Modelled from the spec: a button attached to an input prompter. -/
structure QuickInputButton (α : Type) where
  onClick : ButtonBehavior α
deriving DecidableEq

/-- Modelled from the spec: the back button used by the wizard flows. -/
def createBackButton : QuickInputButton String :=
  QuickInputButton.mk ButtonBehavior.signalBack

/-- Modelled from the spec: the observable state of the single-line text
input control wrapped by the input-box prompter (the fields the claims
inspect). -/
structure DataInputBox where
  value : String
  buttons : List (QuickInputButton String)
  isShowing : Bool
deriving DecidableEq

/-- Modelled from the spec: the user/UI events an input box prompter reacts
to — accept, hide without accept, value change, and a button press. -/
inductive InputEvent where
  | accept
  | hide
  | changeValue (s : String)
  | pressButton (b : QuickInputButton String)

/-- Modelled from the spec: how the input-box prompter reacts to one event.
The `Except` layer witnesses that the reaction never rejects the promise for
user events: every branch is `Except.ok`.  `none` in the second component
means the prompt is still pending. -/
def handleInputEvent (box : DataInputBox) :
    InputEvent → Except String (DataInputBox × Option (PromptResult String))
  | InputEvent.accept =>
      Except.ok ({ box with isShowing := false }, some (PromptResult.value box.value))
  | InputEvent.hide =>
      Except.ok ({ box with isShowing := false }, some PromptResult.cancel)
  | InputEvent.changeValue s =>
      Except.ok ({ box with value := s }, none)
  | InputEvent.pressButton b =>
      match b.onClick with
      | ButtonBehavior.resolveWith v =>
          Except.ok ({ box with isShowing := false }, some (PromptResult.value v))
      | ButtonBehavior.signalBack =>
          Except.ok ({ box with isShowing := false }, some PromptResult.back)
      | ButtonBehavior.signalCancel =>
          Except.ok ({ box with isShowing := false }, some PromptResult.cancel)
      | ButtonBehavior.sideEffect =>
          Except.ok (box, none)

/-- Modelled from the spec: a pending `prompt()` consumes events until the
first one that resolves it; `none` means the promise is still unresolved
after the given events. -/
def promptEvents :
    DataInputBox → List InputEvent → Except String (DataInputBox × Option (PromptResult String))
  | box, [] => Except.ok (box, none)
  | box, e :: rest =>
      match handleInputEvent box e with
      | Except.error msg => Except.error msg
      | Except.ok (b2, some r) => Except.ok (b2, some r)
      | Except.ok (b2, none) => promptEvents b2 rest

/-- Modelled from the spec: `prompt()` shows the box, then processes events. -/
def prompt (box : DataInputBox) (events : List InputEvent) :
    Except String (DataInputBox × Option (PromptResult String)) :=
  promptEvents { box with isShowing := true } events

/-- Identifies a log group, as in `logDataRegistry`. -/
structure CloudWatchLogsGroupInfo where
  groupName : String
  regionName : String
deriving DecidableEq

/-- Parameters of a log query; only `filterPattern` is used here. -/
structure CloudWatchLogsParameters where
  filterPattern : Option String
deriving DecidableEq

/-- The ad-hoc retry state threaded through `SearchPatternPrompter`
(`searchPattern` and `validationMessage` recorded by a prior attempt). -/
structure RetryState where
  searchPattern : Option String
  validationMessage : Option String
deriving DecidableEq

/-- Kinds of buttons placed on the search-pattern input box. -/
inductive ButtonKind where
  | help
  | exit
  | back
deriving DecidableEq

/-- State of the vscode `InputBox` handle wrapped by `SearchPatternPrompter`
(the fields the claims inspect). -/
structure InputBox where
  value : String
  validationMessage : Option String
  busy : Bool
  buttons : List ButtonKind
deriving DecidableEq

/-- Effect of the `SearchPatternPrompter` constructor on its input box: the
validation message is restored from `retryState` when one is recorded
(JS truthiness: the empty string does not count), and the box value is
restored from the recorded search pattern when one is recorded. -/
def initSearchPatternBox (retryState : RetryState) (box : InputBox) : InputBox :=
  let b1 : InputBox :=
    { box with
      validationMessage :=
        match retryState.validationMessage with
        | some m => if m = "" then none else some m
        | none => none }
  match retryState.searchPattern with
  | some p => if p = "" then b1 else { b1 with value := p }
  | none => b1

/-- The `onDidChangeValue` handler registered by the `SearchPatternPrompter`
constructor: the widget updates the value and the handler unconditionally
clears the validation message. -/
def searchPatternChangeValue (box : InputBox) (val : String) : InputBox :=
  { box with value := val, validationMessage := none }

/-- The `SearchPatternPrompter` object: its construction-time fields plus the
state of its input box. -/
structure SearchPatternPrompterModel where
  logGroup : CloudWatchLogsGroupInfo
  logParams : CloudWatchLogsParameters
  retryState : RetryState
  inputBox : InputBox
deriving DecidableEq

/-- Embeds `createSearchPatternPrompter`: builds the button set (help and exit, plus
a back button when this is not the first wizard step), creates a fresh input
box, and runs the `SearchPatternPrompter` constructor on it.  The localized
title and placeholder strings are not modelled: no claim inspects them. -/
def createSearchPatternPrompter (logGroup : CloudWatchLogsGroupInfo)
    (logParams : CloudWatchLogsParameters) (retryState : RetryState)
    (isFirst : Bool) : SearchPatternPrompterModel :=
  let buttons :=
    if isFirst then [ButtonKind.help, ButtonKind.exit]
    else [ButtonKind.help, ButtonKind.exit, ButtonKind.back]
  let freshBox : InputBox :=
    { value := "", validationMessage := none, busy := false, buttons := buttons }
  { logGroup := logGroup, logParams := logParams, retryState := retryState,
    inputBox := initSearchPatternBox retryState freshBox }

/-- The input-box state in which the post-accept validation phase of
`SearchPatternPrompter.promptUser` runs: busy is raised before the phase. -/
def validationPhaseBox (box : InputBox) : InputBox :=
  { box with busy := true }

/-- The `try`/`finally` shape of `SearchPatternPrompter.promptUser` after the
inner prompt returned: busy is set, the phase body runs (it may throw), and
the `finally` clause lowers busy again on every path, exception included. -/
def runValidationPhase (box : InputBox) (retry : RetryState)
    (body : InputBox → RetryState → Except String (PromptResult String × RetryState)) :
    Except String (PromptResult String) × RetryState × InputBox :=
  let busyBox := validationPhaseBox box
  match body busyBox retry with
  | Except.ok (res, retry2) => (Except.ok res, retry2, { busyBox with busy := false })
  | Except.error e => (Except.error e, retry, { busyBox with busy := false })

/-- The body of the `try` block in `SearchPatternPrompter.promptUser`: a
wizard control signal is returned as-is; otherwise the retry state records
the accepted pattern and the current box value is returned. -/
def searchValidationBody (rv : PromptResult String) (box : InputBox)
    (retry : RetryState) : PromptResult String × RetryState :=
  if isWizardControl rv then (rv, retry)
  else
    (PromptResult.value box.value,
      { retry with
        searchPattern :=
          match rv with
          | PromptResult.value s => some s
          | _ => none })

/-- Embeds `SearchPatternPrompter.promptUser`, given the result `rv` of the inner
`super.promptUser()` call: run the validation phase under the busy flag. -/
def searchPromptUser (rv : PromptResult String) (box : InputBox)
    (retry : RetryState) :
    Except String (PromptResult String) × RetryState × InputBox :=
  runValidationPhase box retry (fun b r => Except.ok (searchValidationBody rv b r))

/-- Answer of the two-tier region submenu: a region and an item in it. -/
structure RegionSubmenuResponse where
  region : String
  data : String
deriving DecidableEq

/-- Completed response of the tail-log-group wizard. -/
structure TailLogGroupWizardResponse where
  submenuResponse : RegionSubmenuResponse
  filterPattern : String
deriving DecidableEq

/-- The wizard state while running: each field may still be absent. -/
structure TailWizardState where
  submenuResponse : Option RegionSubmenuResponse
  filterPattern : Option String
deriving DecidableEq

/-- The two form fields of the tail-log-group wizard, in declared order. -/
inductive WizardField where
  | submenuResponse
  | filterPattern
deriving DecidableEq

/-- One scripted user response to the prompt of the field the wizard is
currently on. -/
inductive TailStepResult where
  | submenuVal (r : RegionSubmenuResponse)
  | filterVal (s : String)
  | back
  | cancel

/-- Ways a wizard run can reject: a configuration error thrown by a prompter
factory, a script answering the wrong field, or exhausted fuel. -/
inductive WizardRunError where
  | configError (msg : String)
  | scriptMismatch
  | outOfFuel
deriving DecidableEq

/-- Why a run reached DONE: completion, an explicit cancel, or backing out
of the first step. -/
inductive ExitReason where
  | completed
  | cancelled
  | backedOut
deriving DecidableEq

/-- Initial state of `TailLogGroupWizard`: `submenuResponse` is pre-filled
from `logGroupInfo` when one is given. -/
def tailWizardInitState (logGroupInfo : Option CloudWatchLogsGroupInfo) :
    TailWizardState :=
  { submenuResponse :=
      match logGroupInfo with
      | some i => some { region := i.regionName, data := i.groupName }
      | none => none,
    filterPattern := none }

/-- The prompter factory bound to the `filterPattern` field of
`TailLogGroupWizard`: it throws when the state has no `submenuResponse`,
and otherwise builds the search-pattern prompter from it. -/
def tailFilterPatternFactory (retryState : RetryState) (isFirst : Bool)
    (st : TailWizardState) : Except WizardRunError SearchPatternPrompterModel :=
  match st.submenuResponse with
  | none => Except.error (WizardRunError.configError "state.submenuResponse is null")
  | some r =>
      Except.ok
        (createSearchPatternPrompter
          { groupName := r.data, regionName := r.region }
          { filterPattern := none } retryState isFirst)

/-- Modelled from the spec: the wizard engine (`Wizard.run`) is not under
src/; this is its state machine from §4.3, specialized to the two fields of
`TailLogGroupWizard` and parameterized by the `filterPattern` factory.  Each
iteration computes the next unresolved field in declared order; a value is
stored and the loop continues; back pops the history (exiting when it is
empty, otherwise invalidating the popped and later fields and re-prompting
the field before it); cancel ends the run at once.  The `ExitReason` tags
which terminal branch produced the `DONE` result. -/
def runTailWizard (ff : TailWizardState → Except WizardRunError SearchPatternPrompterModel) :
    Nat → TailWizardState → List WizardField → List TailStepResult →
    Except WizardRunError (Option TailLogGroupWizardResponse × ExitReason)
  | 0, _, _, _ => Except.error WizardRunError.outOfFuel
  | Nat.succ fuel, st, hist, script =>
      match st.submenuResponse with
      | none =>
          match script with
          | [] => Except.error WizardRunError.scriptMismatch
          | step :: rest =>
              match step with
              | TailStepResult.submenuVal r =>
                  runTailWizard ff fuel { st with submenuResponse := some r }
                    (WizardField.submenuResponse :: hist) rest
              | TailStepResult.back =>
                  match hist with
                  | [] => Except.ok (none, ExitReason.backedOut)
                  | _ :: hs =>
                      runTailWizard ff fuel
                        { submenuResponse := none, filterPattern := none } hs rest
              | TailStepResult.cancel => Except.ok (none, ExitReason.cancelled)
              | TailStepResult.filterVal _ => Except.error WizardRunError.scriptMismatch
      | some r =>
          match st.filterPattern with
          | none =>
              match ff st with
              | Except.error e => Except.error e
              | Except.ok _ =>
                  match script with
                  | [] => Except.error WizardRunError.scriptMismatch
                  | step :: rest =>
                      match step with
                      | TailStepResult.filterVal s =>
                          runTailWizard ff fuel { st with filterPattern := some s }
                            (WizardField.filterPattern :: hist) rest
                      | TailStepResult.back =>
                          match hist with
                          | [] => Except.ok (none, ExitReason.backedOut)
                          | _ :: hs =>
                              runTailWizard ff fuel
                                { submenuResponse := none, filterPattern := none } hs rest
                      | TailStepResult.cancel => Except.ok (none, ExitReason.cancelled)
                      | TailStepResult.submenuVal _ =>
                          Except.error WizardRunError.scriptMismatch
          | some s =>
              Except.ok
                (some { submenuResponse := r, filterPattern := s }, ExitReason.completed)

/-- Models `CancellationError` from the timeout utilities, carrying its agent. -/
structure CancellationError where
  agent : String
deriving DecidableEq

/-- The head of `tailLogGroup` after `wizard.run()` returned: an absent
response raises a `CancellationError` with agent user, a present one is turned into
the log group info the rest of the function proceeds with. -/
def tailLogGroupCheckResponse (response : Option TailLogGroupWizardResponse) :
    Except CancellationError CloudWatchLogsGroupInfo :=
  match response with
  | none => Except.error { agent := "user" }
  | some r =>
      Except.ok { groupName := r.submenuResponse.data, regionName := r.submenuResponse.region }

/-- Retry delay of the python debug adapter heartbeat loop, in ms. -/
def PYTHON_DEBUG_ADAPTER_RETRY_DELAY_MS : Nat := 1000

/-- The retry loop of `waitForPythonDebugAdapter`.  `avail n` is whether the
heartbeat of iteration `n` reports the debug server up; `t n` is the clock
value `Date.now()` reads at the timeout check of iteration `n`; `stopMillis`
is the deadline computed before the loop.  `none` means the given fuel was
not enough to reach an exit of the loop. -/
def waitLoop (avail : Nat → Bool) (t : Nat → Nat) (stopMillis : Nat) :
    Nat → Nat → Option Bool
  | 0, _ => none
  | Nat.succ fuel, n =>
      if avail n then some true
      else if stopMillis < t n then some false
      else waitLoop avail t stopMillis fuel (n + 1)

/-- Embeds `waitForPythonDebugAdapter`: runs the retry loop against the deadline
`startMillis + timeoutDurationMillis` and reports the pair
(debug server available, warning logged to the channel). -/
def waitForPythonDebugAdapter (avail : Nat → Bool) (t : Nat → Nat)
    (startMillis timeoutDurationMillis fuel : Nat) : Option (Bool × Bool) :=
  match waitLoop avail t (startMillis + timeoutDurationMillis) fuel 0 with
  | some available => some (available, !available)
  | none => none

/-- Whether a character list ends with colon-star, the suffix check of the source. -/
def endsWithColonStar (s : List Char) : Bool :=
  match s.reverse with
  | c1 :: c2 :: _ => c1 == '*' && c2 == ':'
  | _ => false

/-- Embeds `formatGroupArn`: strips a trailing colon-star from a group ARN. -/
def formatGroupArn (s : List Char) : List Char :=
  if endsWithColonStar s then s.take (s.length - 2) else s

/-- Whether a character list ends with two copies of colon-star. -/
def endsWithColonStarTwice (s : List Char) : Bool :=
  match s.reverse with
  | c1 :: c2 :: c3 :: c4 :: _ => c1 == '*' && c2 == ':' && c3 == '*' && c4 == ':'
  | _ => false

/-- A primitive JSON value of a `ReadonlyJsonObject` entry. -/
inductive JsonPrim where
  | str (s : String)
  | num (n : Int)
  | bool (b : Bool)
deriving DecidableEq

/-- Models `ReadonlyJsonObject`: string keys mapped to primitive values. -/
abbrev ReadonlyJsonObject : Type := List (String × JsonPrim)

/-- JS truthiness of an optional object: any object is truthy. -/
def objTruthy : Option ReadonlyJsonObject → Bool
  | some _ => true
  | none => false

/-- JS truthiness of an optional string: present and non-empty. -/
def strTruthy : Option String → Bool
  | some s => !(s == "")
  | none => false

/-- JS truthiness of an optional boolean: present and true. -/
def boolTruthy : Option Bool → Bool
  | some b => b
  | none => false

/-- The `aws-sam` debug configuration type constant. -/
def AWS_SAM_DEBUG_TYPE : String := "aws-sam"

/-- The `direct-invoke` request constant. -/
def DIRECT_INVOKE_TYPE : String := "direct-invoke"

/-- The `template` invoke-target constant. -/
def TEMPLATE_TARGET_TYPE : String := "template"

/-- The `code` invoke-target constant. -/
def CODE_TARGET_TYPE : String := "code"

/-- The invoke-target union, with the fields of both variants optional and a
`target` discriminant, as the guards read it. -/
structure TargetProperties where
  target : String
  samTemplatePath : Option String
  samTemplateResource : Option String
  projectRoot : Option String
  lambdaHandler : Option String
deriving DecidableEq

/-- The `event` object of the `lambda` section. -/
structure LambdaEvent where
  json : ReadonlyJsonObject
deriving DecidableEq

/-- The `lambda` section of a debug configuration. -/
structure LambdaSection where
  event : Option LambdaEvent
  environmentVariables : Option ReadonlyJsonObject
deriving DecidableEq

/-- The `sam` section of a debug configuration. -/
structure SamSection where
  dockerNetwork : Option String
  containerBuild : Option Bool
deriving DecidableEq

/-- An `aws-sam` debugger configuration (the fields the claims inspect). -/
structure AwsSamDebuggerConfiguration where
  type : String
  request : String
  name : String
  invokeTarget : TargetProperties
  lambda : Option LambdaSection
  sam : Option SamSection
deriving DecidableEq

/-- Guard: a debug configuration of type `aws-sam`. -/
def isAwsSamDebugConfiguration (config : AwsSamDebuggerConfiguration) : Bool :=
  config.type == AWS_SAM_DEBUG_TYPE

/-- Guard: invoke-target properties of target `template`. -/
def isTemplateTargetProperties (props : TargetProperties) : Bool :=
  props.target == TEMPLATE_TARGET_TYPE

/-- Guard: invoke-target properties of target `code`. -/
def isCodeTargetProperties (props : TargetProperties) : Bool :=
  props.target == CODE_TARGET_TYPE

/-- The optional preloaded configuration of `createTemplateAwsSamDebugConfig`. -/
structure PreloadedConfig where
  eventJson : Option ReadonlyJsonObject
  environmentVariables : Option ReadonlyJsonObject
  dockerNetwork : Option String
  useContainer : Option Bool
deriving DecidableEq

/-- Embeds `makeName`: decorates the primary name with the extra info when that is
truthy. -/
def makeName (primaryName : String) (extraInfo : Option String) : String :=
  match extraInfo with
  | some extra => if extra == "" then primaryName else primaryName ++ " (" ++ extra ++ ")"
  | none => primaryName

/-- Embeds `createTemplateAwsSamDebugConfig`: builds a template-target `aws-sam`
debug configuration; `normalizeRelativePath` stands for the external
`getNormalizedRelativePath` utility and `folder` for `folder?.uri.fsPath`. -/
def createTemplateAwsSamDebugConfig (normalizeRelativePath : String → String → String)
    (folder : Option String) (runtimeName : Option String) (resourceName : String)
    (templatePath : String) (preloadedConfig : Option PreloadedConfig) :
    AwsSamDebuggerConfiguration :=
  let workspaceRelativePath :=
    match folder with
    | some f => normalizeRelativePath f templatePath
    | none => templatePath
  let response : AwsSamDebuggerConfiguration :=
    { type := AWS_SAM_DEBUG_TYPE,
      request := DIRECT_INVOKE_TYPE,
      name := makeName resourceName runtimeName,
      invokeTarget :=
        { target := TEMPLATE_TARGET_TYPE,
          samTemplatePath := some workspaceRelativePath,
          samTemplateResource := some resourceName,
          projectRoot := none,
          lambdaHandler := none },
      lambda := none,
      sam := none }
  match preloadedConfig with
  | none => response
  | some pc =>
      { response with
        lambda :=
          if objTruthy pc.environmentVariables || objTruthy pc.eventJson then
            some
              { event := pc.eventJson.map (fun j => { json := j }),
                environmentVariables := pc.environmentVariables }
          else none,
        sam :=
          if strTruthy pc.dockerNetwork || boolTruthy pc.useContainer then
            some { dockerNetwork := pc.dockerNetwork, containerBuild := pc.useContainer }
          else none }

/-!  Theorems. -/

/-- Claim C1: for every input box, a plain hide while `prompt()` is pending
resolves the promise (the reaction is `Except.ok`, never a rejection) with
the `cancel` control signal, so ordinary user cancellation is returned as
data. -/
theorem inputBoxPrompter_hide_resolves_cancel :
    ∀ box : DataInputBox,
      handleInputEvent box InputEvent.hide
        = Except.ok ({ box with isShowing := false }, some PromptResult.cancel)
      ∧ prompt box [InputEvent.hide]
        = Except.ok ({ box with isShowing := false }, some PromptResult.cancel) := by
  intro box
  exact ⟨rfl, rfl⟩

/-- Claim C2: pressing a back button carried by the input box resolves the
pending `prompt()` with the back control signal `WIZARD_BACK`, which is
neither `cancel` nor a value. -/
theorem inputBoxPrompter_backButton_resolves_back :
    ∀ (box : DataInputBox) (b : QuickInputButton String),
      b ∈ box.buttons → b.onClick = ButtonBehavior.signalBack →
      prompt box [InputEvent.pressButton b]
        = Except.ok ({ box with isShowing := false }, some WIZARD_BACK)
      ∧ WIZARD_BACK ≠ PromptResult.cancel
      ∧ ∀ v : String, WIZARD_BACK ≠ PromptResult.value v := by
  intro box b _ hclick
  refine ⟨?_, by simp [WIZARD_BACK], fun v => by simp [WIZARD_BACK]⟩
  simp [prompt, promptEvents, handleInputEvent, hclick, WIZARD_BACK]

/-- Witness for claim C2 at a concrete box carrying the back button. -/
theorem inputBoxPrompter_backButton_resolves_back_witness :
    prompt { value := "", buttons := [createBackButton], isShowing := false }
        [InputEvent.pressButton createBackButton]
      = Except.ok
          ({ value := "", buttons := [createBackButton], isShowing := false },
            some WIZARD_BACK)
    ∧ WIZARD_BACK ≠ PromptResult.cancel := by
  have h := inputBoxPrompter_backButton_resolves_back
    { value := "", buttons := [createBackButton], isShowing := false }
    createBackButton (List.Mem.head _) rfl
  exact ⟨h.1, h.2.1⟩

/-- Claim C3: a button whose handler resolves with `v` makes the pending
`prompt()` resolve with exactly `v`; a button whose handler only performs a
side effect leaves the prompt unresolved and the box showing. -/
theorem inputBoxPrompter_button_resolver :
    ∀ (box : DataInputBox) (b : QuickInputButton String) (v : String),
      (b.onClick = ButtonBehavior.resolveWith v →
        prompt box [InputEvent.pressButton b]
          = Except.ok ({ box with isShowing := false }, some (PromptResult.value v)))
      ∧ (b.onClick = ButtonBehavior.sideEffect →
        prompt box [InputEvent.pressButton b]
          = Except.ok ({ box with isShowing := true }, none)
        ∧ ({ box with isShowing := true } : DataInputBox).isShowing = true) := by
  intro box b v
  constructor
  · intro hclick
    simp [prompt, promptEvents, handleInputEvent, hclick]
  · intro hclick
    exact ⟨by simp [prompt, promptEvents, handleInputEvent, hclick], rfl⟩

/-- Witness for claim C3 at concrete resolve-with-value and side-effect
buttons. -/
theorem inputBoxPrompter_button_resolver_witness :
    prompt { value := "", buttons := [], isShowing := false }
        [InputEvent.pressButton { onClick := ButtonBehavior.resolveWith "hello world" }]
      = Except.ok ({ value := "", buttons := [], isShowing := false },
          some (PromptResult.value "hello world"))
    ∧ prompt { value := "", buttons := [], isShowing := false }
        [InputEvent.pressButton { onClick := ButtonBehavior.sideEffect }]
      = Except.ok ({ value := "", buttons := [], isShowing := true }, none) := by
  have h1 := (inputBoxPrompter_button_resolver
    { value := "", buttons := [], isShowing := false }
    { onClick := ButtonBehavior.resolveWith "hello world" } "hello world").1 rfl
  have h2 := (inputBoxPrompter_button_resolver
    { value := "", buttons := [], isShowing := false }
    { onClick := ButtonBehavior.sideEffect } "").2 rfl
  exact ⟨h1, h2.1⟩

/-- Claim C6: a `SearchPatternPrompter` built from a retry state recording a
prior pattern and a (non-empty) validation message starts with the box value
equal to the recorded pattern and the validation message equal to the
recorded message, and any change of the input value clears the message. -/
theorem searchPatternPrompter_restoresRetryState :
    ∀ (lg : CloudWatchLogsGroupInfo) (lp : CloudWatchLogsParameters)
      (rs : RetryState) (isFirst : Bool) (p m : String),
      rs.searchPattern = some p → rs.validationMessage = some m → m ≠ "" →
      (createSearchPatternPrompter lg lp rs isFirst).inputBox.value = p
      ∧ (createSearchPatternPrompter lg lp rs isFirst).inputBox.validationMessage = some m
      ∧ ∀ (box : InputBox) (v : String),
          (searchPatternChangeValue box v).validationMessage = none := by
  intro lg lp rs isFirst p m hp hm hmne
  refine ⟨?_, ?_, fun box v => rfl⟩
  · simp only [createSearchPatternPrompter, initSearchPatternBox, hp, hm]
    split_ifs <;> simp_all
  · simp only [createSearchPatternPrompter, initSearchPatternBox, hp, hm]
    split_ifs <;> simp_all

/-- Witness for claim C6 at a concrete retry state. -/
theorem searchPatternPrompter_restoresRetryState_witness :
    (createSearchPatternPrompter { groupName := "g", regionName := "r" }
        { filterPattern := none }
        { searchPattern := some "errPat", validationMessage := some "bad pattern" }
        true).inputBox.value = "errPat"
    ∧ (createSearchPatternPrompter { groupName := "g", regionName := "r" }
        { filterPattern := none }
        { searchPattern := some "errPat", validationMessage := some "bad pattern" }
        true).inputBox.validationMessage = some "bad pattern"
    ∧ (searchPatternChangeValue ⟨"x", some "bad pattern", false, []⟩ "y").validationMessage
        = none := by
  have h := searchPatternPrompter_restoresRetryState
    { groupName := "g", regionName := "r" } { filterPattern := none }
    { searchPattern := some "errPat", validationMessage := some "bad pattern" }
    true "errPat" "bad pattern" rfl rfl (by decide)
  exact ⟨h.1, h.2.1, h.2.2 ⟨"x", some "bad pattern", false, []⟩ "y"⟩

/-- Claim C7: the post-accept validation phase of
`SearchPatternPrompter.promptUser` runs with the busy flag raised, and the
flag is lowered when the call settles on every path — wizard control result,
value result, and an exception escaping the phase body. -/
theorem searchPromptUser_busy :
    ∀ (box : InputBox) (retry : RetryState) (rv : PromptResult String)
      (body : InputBox → RetryState → Except String (PromptResult String × RetryState)),
      (searchPromptUser rv box retry).2.2.busy = false
      ∧ (runValidationPhase box retry body).2.2.busy = false
      ∧ (validationPhaseBox box).busy = true := by
  intro box retry rv body
  refine ⟨rfl, ?_, rfl⟩
  unfold runValidationPhase
  cases h : body (validationPhaseBox box) retry with
  | error e => simp [h]
  | ok pr =>
    cases pr with
    | mk res retry2 => simp [h]

/-- Claim C10: every configuration built by `createTemplateAwsSamDebugConfig`
has type `aws-sam`, request `direct-invoke`, and invoke target `template`, so
both guards hold of it; and without a preloaded config the result carries no
`lambda` and no `sam` section. -/
theorem createTemplateAwsSamDebugConfig_shape :
    ∀ (normalizeRelativePath : String → String → String)
      (folder runtimeName : Option String) (resourceName templatePath : String)
      (pre : Option PreloadedConfig),
      (createTemplateAwsSamDebugConfig normalizeRelativePath folder runtimeName
          resourceName templatePath pre).type = "aws-sam"
      ∧ (createTemplateAwsSamDebugConfig normalizeRelativePath folder runtimeName
          resourceName templatePath pre).request = "direct-invoke"
      ∧ (createTemplateAwsSamDebugConfig normalizeRelativePath folder runtimeName
          resourceName templatePath pre).invokeTarget.target = "template"
      ∧ isAwsSamDebugConfiguration
          (createTemplateAwsSamDebugConfig normalizeRelativePath folder runtimeName
            resourceName templatePath pre) = true
      ∧ isTemplateTargetProperties
          (createTemplateAwsSamDebugConfig normalizeRelativePath folder runtimeName
            resourceName templatePath pre).invokeTarget = true
      ∧ (createTemplateAwsSamDebugConfig normalizeRelativePath folder runtimeName
          resourceName templatePath none).lambda = none
      ∧ (createTemplateAwsSamDebugConfig normalizeRelativePath folder runtimeName
          resourceName templatePath none).sam = none := by
  intro nrp folder rn res tp pre
  rcases pre with _ | pc <;>
    simp [createTemplateAwsSamDebugConfig, isAwsSamDebugConfiguration,
      isTemplateTargetProperties, AWS_SAM_DEBUG_TYPE, DIRECT_INVOKE_TYPE,
      TEMPLATE_TARGET_TYPE]

/-- Removing the last two elements of a list is taking its length minus two. -/
theorem dropLast_dropLast_eq_take (l : List Char) :
    l.dropLast.dropLast = l.take (l.length - 2) := by
  rw [List.dropLast_eq_take, List.dropLast_eq_take, List.length_take, List.take_take]
  congr 1
  have h1 : (l.length - 1) ⊓ l.length = l.length - 1 :=
    Nat.min_eq_left (Nat.sub_le _ _)
  rw [h1]
  exact Nat.min_eq_left (by omega)

/-- Claim C9: `formatGroupArn` removes the final two characters exactly when
the input ends with colon-star and is the identity otherwise; consequently
its result only ends with colon-star when the input ended with a doubled
colon-star. -/
theorem formatGroupArn_spec :
    ∀ s : List Char,
      (endsWithColonStar s = true → formatGroupArn s = s.dropLast.dropLast)
      ∧ (endsWithColonStar s = false → formatGroupArn s = s)
      ∧ (endsWithColonStar (formatGroupArn s) = true → endsWithColonStarTwice s = true) := by
  intro s
  refine ⟨?_, ?_, ?_⟩
  · intro h
    rw [dropLast_dropLast_eq_take]
    simp [formatGroupArn, h]
  · intro h
    simp [formatGroupArn, h]
  · intro h
    by_cases hs : endsWithColonStar s = true
    · have hf : formatGroupArn s = s.take (s.length - 2) := by simp [formatGroupArn, hs]
      rcases hrev : s.reverse with _ | ⟨c1, tail⟩
      · simp [endsWithColonStar, hrev] at hs
      · rcases tail with _ | ⟨c2, rest⟩
        · simp [endsWithColonStar, hrev] at hs
        · simp only [endsWithColonStar, hrev, Bool.and_eq_true, beq_iff_eq] at hs
          obtain ⟨hc1, hc2⟩ := hs
          have hlen : s.length = rest.length + 2 := by
            have hl := congrArg List.length hrev
            simpa using hl
          have hfr : (formatGroupArn s).reverse = rest := by
            rw [hf, List.reverse_take, hrev, hlen]
            have h2 : rest.length + 2 - (rest.length + 2 - 2) = 2 := by omega
            rw [h2]
            rfl
          simp only [endsWithColonStar, hfr] at h
          rcases rest with _ | ⟨d1, tail2⟩
          · simp at h
          · rcases tail2 with _ | ⟨d2, rest2⟩
            · simp at h
            · simp only [Bool.and_eq_true, beq_iff_eq] at h
              obtain ⟨hd1, hd2⟩ := h
              simp [endsWithColonStarTwice, hrev, hc1, hc2, hd1, hd2]
    · have hf : formatGroupArn s = s := by simp [formatGroupArn, hs]
      rw [hf] at h
      exact absurd h hs

/-- Witness for claim C9 at concrete ARNs. -/
theorem formatGroupArn_spec_witness :
    formatGroupArn [':', '*'] = ([] : List Char)
    ∧ formatGroupArn ['a'] = ['a']
    ∧ endsWithColonStarTwice [':', '*', ':', '*'] = true := by
  refine ⟨?_, ?_, ?_⟩
  · have h := (formatGroupArn_spec [':', '*']).1 (by decide)
    exact h.trans (by decide)
  · exact (formatGroupArn_spec ['a']).2.1 (by decide)
  · exact (formatGroupArn_spec [':', '*', ':', '*']).2.2 (by decide)

/-- The clock of the heartbeat retry loop gains at least the retry delay per
iteration, so it grows at least linearly. -/
theorem waitClock_lower (t : Nat → Nat)
    (hstep : ∀ n, t n + PYTHON_DEBUG_ADAPTER_RETRY_DELAY_MS ≤ t (n + 1)) :
    ∀ n, t 0 + n * PYTHON_DEBUG_ADAPTER_RETRY_DELAY_MS ≤ t n := by
  intro n
  induction n with
  | zero => simp
  | succ k ih =>
      have hk := hstep k
      have harith : t 0 + (k + 1) * PYTHON_DEBUG_ADAPTER_RETRY_DELAY_MS
          = t 0 + k * PYTHON_DEBUG_ADAPTER_RETRY_DELAY_MS
            + PYTHON_DEBUG_ADAPTER_RETRY_DELAY_MS := by ring
      omega

/-- The retry loop exits within the given fuel as soon as some reachable
iteration is past the deadline. -/
theorem waitLoop_exits (avail : Nat → Bool) (t : Nat → Nat) (stop : Nat) :
    ∀ fuel n, (∃ k, k < fuel ∧ stop < t (n + k)) →
      (waitLoop avail t stop fuel n).isSome = true := by
  intro fuel
  induction fuel with
  | zero =>
      intro n h
      obtain ⟨k, hk, _⟩ := h
      omega
  | succ f ih =>
      intro n h
      obtain ⟨k, hk, hgt⟩ := h
      by_cases ha : avail n
      · simp [waitLoop, ha]
      · by_cases hstop : stop < t n
        · simp [waitLoop, ha, hstop]
        · simp only [waitLoop, ha, if_false, Bool.false_eq_true, if_neg hstop]
          apply ih
          rcases k with _ | k2
          · simp at hgt
            omega
          · refine ⟨k2, by omega, ?_⟩
            have h2 : n + (k2 + 1) = n + 1 + k2 := by omega
            rw [h2] at hgt
            exact hgt

/-- A loop exit reporting the server up comes from a heartbeat success. -/
theorem waitLoop_true_reason (avail : Nat → Bool) (t : Nat → Nat) (stop : Nat) :
    ∀ fuel n, waitLoop avail t stop fuel n = some true → ∃ m, avail m = true := by
  intro fuel
  induction fuel with
  | zero => intro n h; simp [waitLoop] at h
  | succ f ih =>
      intro n h
      by_cases ha : avail n
      · exact ⟨n, ha⟩
      · by_cases hstop : stop < t n
        · simp [waitLoop, ha, hstop] at h
        · simp only [waitLoop, ha, Bool.false_eq_true, if_false, if_neg hstop] at h
          exact ih (n + 1) h

/-- A loop exit reporting the server unavailable comes from passing the
deadline. -/
theorem waitLoop_false_reason (avail : Nat → Bool) (t : Nat → Nat) (stop : Nat) :
    ∀ fuel n, waitLoop avail t stop fuel n = some false → ∃ m, stop < t m := by
  intro fuel
  induction fuel with
  | zero => intro n h; simp [waitLoop] at h
  | succ f ih =>
      intro n h
      by_cases ha : avail n
      · simp [waitLoop, ha] at h
      · by_cases hstop : stop < t n
        · exact ⟨n, hstop⟩
        · simp only [waitLoop, ha, Bool.false_eq_true, if_false, if_neg hstop] at h
          exact ih (n + 1) h

/-- Claim C8: for positive `timeoutDurationMillis`, given that the clock
starts at or after `startMillis` and gains at least the retry delay per
iteration (the 1000ms sleep), `waitForPythonDebugAdapter` terminates within
`timeout / delay + 2` iterations; it exits either because a heartbeat
reported the server up or because the clock passed the deadline, and the
warning is logged exactly in the unavailable case. -/
theorem waitForPythonDebugAdapter_terminates :
    ∀ (avail : Nat → Bool) (t : Nat → Nat) (startMillis timeoutDurationMillis : Nat),
      0 < timeoutDurationMillis →
      startMillis ≤ t 0 →
      (∀ n, t n + PYTHON_DEBUG_ADAPTER_RETRY_DELAY_MS ≤ t (n + 1)) →
      (waitForPythonDebugAdapter avail t startMillis timeoutDurationMillis
          (timeoutDurationMillis / PYTHON_DEBUG_ADAPTER_RETRY_DELAY_MS + 2)).isSome = true
      ∧ ∀ a w,
          waitForPythonDebugAdapter avail t startMillis timeoutDurationMillis
              (timeoutDurationMillis / PYTHON_DEBUG_ADAPTER_RETRY_DELAY_MS + 2)
            = some (a, w) →
          (w = true ↔ a = false)
          ∧ (a = true → ∃ n, avail n = true)
          ∧ (a = false → ∃ n, startMillis + timeoutDurationMillis < t n) := by
  intro avail t start timeout _ hstart hstep
  have hD : PYTHON_DEBUG_ADAPTER_RETRY_DELAY_MS = 1000 := rfl
  simp only [hD]
  have hex : ∃ k, k < timeout / 1000 + 2 ∧ start + timeout < t (0 + k) := by
    refine ⟨timeout / 1000 + 1, by omega, ?_⟩
    have hlow := waitClock_lower t hstep (timeout / 1000 + 1)
    have hmod := Nat.div_add_mod timeout 1000
    have hmlt : timeout % 1000 < 1000 := Nat.mod_lt _ (by omega)
    rw [hD] at hlow
    simp only [Nat.zero_add]
    omega
  have hsome := waitLoop_exits avail t (start + timeout) (timeout / 1000 + 2) 0 hex
  constructor
  · unfold waitForPythonDebugAdapter
    cases hloop : waitLoop avail t (start + timeout) (timeout / 1000 + 2) 0 with
    | none => rw [hloop] at hsome; simp at hsome
    | some available => simp [hloop]
  · intro a w h
    unfold waitForPythonDebugAdapter at h
    cases hloop : waitLoop avail t (start + timeout) (timeout / 1000 + 2) 0 with
    | none => rw [hloop] at h; simp at h
    | some available =>
        rw [hloop] at h
        simp only [Option.some_inj, Prod.mk.injEq] at h
        obtain ⟨ha, hw⟩ := h
        refine ⟨?_, ?_, ?_⟩
        · rw [← ha, ← hw]
          cases available <;> simp
        · intro haT
          have hav : available = true := by rw [ha, haT]
          rw [hav] at hloop
          exact waitLoop_true_reason avail t (start + timeout) _ 0 hloop
        · intro haF
          have hav : available = false := by rw [ha, haF]
          rw [hav] at hloop
          exact waitLoop_false_reason avail t (start + timeout) _ 0 hloop

/-- Claim C4: a wizard run resolves with an absent result exactly when the
user exited without completing (cancel, or backing out of the first step),
and `tailLogGroup` raises a user `CancellationError` exactly when the run
returned an absent response. -/
theorem wizardRun_absent_iff_userExited :
    (∀ (ff : TailWizardState → Except WizardRunError SearchPatternPrompterModel)
        (fuel : Nat) (st : TailWizardState) (hist : List WizardField)
        (script : List TailStepResult) (res : Option TailLogGroupWizardResponse)
        (reason : ExitReason),
        runTailWizard ff fuel st hist script = Except.ok (res, reason) →
        (res = none ↔ reason ≠ ExitReason.completed))
    ∧ ∀ res : Option TailLogGroupWizardResponse,
        tailLogGroupCheckResponse res = Except.error { agent := "user" } ↔ res = none := by
  constructor
  · intro ff fuel
    induction fuel with
    | zero =>
        intro st hist script res reason h
        simp [runTailWizard] at h
    | succ n ih =>
        intro st hist script res reason h
        obtain ⟨sub, filt⟩ := st
        cases sub with
        | none =>
            cases script with
            | nil => simp [runTailWizard] at h
            | cons step rest =>
                cases step with
                | submenuVal r =>
                    exact ih _ _ _ _ _ (by simpa [runTailWizard] using h)
                | back =>
                    cases hist with
                    | nil =>
                        simp [runTailWizard] at h
                        obtain ⟨h1, h2⟩ := h
                        subst h1
                        subst h2
                        simp
                    | cons f hs =>
                        exact ih _ _ _ _ _ (by simpa [runTailWizard] using h)
                | cancel =>
                    simp [runTailWizard] at h
                    obtain ⟨h1, h2⟩ := h
                    subst h1
                    subst h2
                    simp
                | filterVal s => simp [runTailWizard] at h
        | some r =>
            cases filt with
            | some s =>
                simp [runTailWizard] at h
                obtain ⟨h1, h2⟩ := h
                subst h1
                subst h2
                simp
            | none =>
                cases hff : ff ⟨some r, none⟩ with
                | error e => simp [runTailWizard, hff] at h
                | ok pr =>
                    cases script with
                    | nil => simp [runTailWizard, hff] at h
                    | cons step rest =>
                        cases step with
                        | filterVal s2 =>
                            exact ih _ _ _ _ _ (by simpa [runTailWizard, hff] using h)
                        | back =>
                            cases hist with
                            | nil =>
                                simp [runTailWizard, hff] at h
                                obtain ⟨h1, h2⟩ := h
                                subst h1
                                subst h2
                                simp
                            | cons f hs =>
                                exact ih _ _ _ _ _ (by simpa [runTailWizard, hff] using h)
                        | cancel =>
                            simp [runTailWizard, hff] at h
                            obtain ⟨h1, h2⟩ := h
                            subst h1
                            subst h2
                            simp
                        | submenuVal _ => simp [runTailWizard, hff] at h
  · intro res
    cases res with
    | none => simp [tailLogGroupCheckResponse]
    | some r => simp [tailLogGroupCheckResponse]

/-- Witness for claim C4: a run cancelled at the first step resolves with an
absent result, and `tailLogGroup` raises a user `CancellationError` on it. -/
theorem wizardRun_absent_iff_userExited_witness :
    ((none : Option TailLogGroupWizardResponse) = none
      ↔ ExitReason.cancelled ≠ ExitReason.completed)
    ∧ (tailLogGroupCheckResponse none = Except.error { agent := "user" }
      ↔ (none : Option TailLogGroupWizardResponse) = none) := by
  refine ⟨?_, (wizardRun_absent_iff_userExited).2 none⟩
  exact (wizardRun_absent_iff_userExited).1
    (fun _ => Except.error WizardRunError.scriptMismatch) 1
    { submenuResponse := none, filterPattern := none } [] [TailStepResult.cancel]
    none ExitReason.cancelled rfl

/-- Claim C5: the prompter factory bound to `filterPattern` throws whenever it
is evaluated on a state without `submenuResponse`, and an error thrown by a
factory during a run is fatal: the run rejects with that very error instead
of converting it into a cancel or validation result. -/
theorem filterPatternFactory_rejects :
    (∀ (retry : RetryState) (isFirst : Bool) (st : TailWizardState),
        st.submenuResponse = none →
        tailFilterPatternFactory retry isFirst st
          = Except.error (WizardRunError.configError "state.submenuResponse is null"))
    ∧ ∀ (ff : TailWizardState → Except WizardRunError SearchPatternPrompterModel)
        (fuel : Nat) (r : RegionSubmenuResponse) (rest : List TailStepResult)
        (e : WizardRunError),
        ff { submenuResponse := some r, filterPattern := none } = Except.error e →
        runTailWizard ff (fuel + 2) { submenuResponse := none, filterPattern := none }
          [] (TailStepResult.submenuVal r :: rest) = Except.error e := by
  constructor
  · intro retry isFirst st hnone
    simp [tailFilterPatternFactory, hnone]
  · intro ff fuel r rest e hff
    simp [runTailWizard, hff]

/-- Witness for claim C5: the factory throws on the empty state, and a run
whose factory throws rejects with that error. -/
theorem filterPatternFactory_rejects_witness :
    tailFilterPatternFactory { searchPattern := none, validationMessage := none } true
        { submenuResponse := none, filterPattern := none }
      = Except.error (WizardRunError.configError "state.submenuResponse is null")
    ∧ runTailWizard (fun _ => Except.error (WizardRunError.configError "boom")) 2
        { submenuResponse := none, filterPattern := none } []
        [TailStepResult.submenuVal { region := "us-east-1", data := "g" }]
      = Except.error (WizardRunError.configError "boom") := by
  refine ⟨?_, ?_⟩
  · exact (filterPatternFactory_rejects).1 _ true _ rfl
  · exact (filterPatternFactory_rejects).2 _ 0 { region := "us-east-1", data := "g" } [] _ rfl

/-- Witness for claim C8: a never-available heartbeat with a 1000ms clock and
a 1ms timeout still terminates. -/
theorem waitForPythonDebugAdapter_terminates_witness :
    (waitForPythonDebugAdapter (fun _ => false) (fun n => n * 1000) 0 1
        (1 / PYTHON_DEBUG_ADAPTER_RETRY_DELAY_MS + 2)).isSome = true :=
  (waitForPythonDebugAdapter_terminates (fun _ => false) (fun n => n * 1000) 0 1
    (by decide) (by decide) (fun n => by simp [PYTHON_DEBUG_ADAPTER_RETRY_DELAY_MS]; omega)).1

end Toolkit
